import Mathlib

/-!
Verification of the MiM platform entity-resolution and classification core.

The definitions below are a shallow embedding of the Python sources:
scripts/agents/entity_resolver.py, scripts/agents/classifier.py,
scripts/agents/gmail-scanner.py and scripts/agents/agent_base.py.
Pure functions become Lean functions; dictionary lookups become
association-list lookups; the in-memory index built by EntityResolver._load
is a parameter (it is read from the external database); floating-point
confidence constants are represented exactly as rationals.
-/

/-- Entity match record, from entity_resolver.py (dataclass EntityMatch).
The confidence field is a float in the source holding only the literal
constants 1.0, 0.9 and 0.6, represented here exactly as rationals. -/
structure EntityMatch where
  entity_type : String
  entity_id : String
  entity_name : String
  match_method : String
  confidence : ℚ
  deriving DecidableEq, Repr

/-- Contact record as stored in the email_to_contacts index
(entity_resolver.py lines 59-61 and 73-77). -/
structure ContactRec where
  id : String
  name : String
  organization : Option String
  deriving DecidableEq, Repr

/-- Linked investor or organization record as stored in the junction and
domain indexes (entity_resolver.py lines 87-89, 99-101, 108, 115). -/
structure LinkedRec where
  id : String
  name : String
  deriving DecidableEq, Repr

/-- The in-memory lookup index built by EntityResolver._load
(entity_resolver.py lines 38-47).  The load step reads the external
database, so the populated tables are taken as input here; Python dicts
become association lists looked up by first matching key. -/
structure ResolverIndex where
  email_to_contacts : List (String × ContactRec)
  contact_to_investors : List (String × List LinkedRec)
  contact_to_orgs : List (String × List LinkedRec)
  domain_to_investors : List (String × LinkedRec)
  domain_to_orgs : List (String × LinkedRec)
  deriving Repr

/-- Deduplication identity of a match: the (entity_type, entity_id) pair
used as the seen-set key in resolve and resolve_multiple. -/
def matchKey (m : EntityMatch) : String × String :=
  (m.entity_type, m.entity_id)

/-- State threaded through resolve and resolve_multiple: the accumulated
matches list and the seen set (kept as a list, in insertion order). -/
abbrev ResState := List EntityMatch × List (String × String)

/-- One guarded append, embedding the repeated pattern
if key not in seen: seen.add(key); matches.append(...) of
entity_resolver.py (lines 172-181 and the analogous blocks). -/
def dedupInsert (st : ResState) (m : EntityMatch) : ResState :=
  if st.2.contains (matchKey m) then st
  else (st.1 ++ [m], st.2 ++ [matchKey m])

/-! Models of the Python string primitives the sources use.  They are
written by structural recursion on the character list of the string, so
that every evaluation reduces inside the kernel.  All inputs handled by
this codebase are ASCII; the primitives model the ASCII fragment of the
Python behavior (noted where Python does more for exotic Unicode). -/

/-- Python str.strip() whitespace set (ASCII fragment): space, tab,
newline, carriage return, vertical tab, form feed. -/
def pyIsSpace (c : Char) : Bool :=
  c = ' ' || c = '\t' || c = '\n' || c = '\r' || c = '\x0b' || c = '\x0c'

/-- Python str.strip() with no argument: drop leading and trailing
whitespace. -/
def pyStrip (s : String) : String :=
  String.mk (((s.data.dropWhile pyIsSpace).reverse.dropWhile pyIsSpace).reverse)

/-- Python str.lower(), ASCII fragment. -/
def pyLower (s : String) : String :=
  String.mk (s.data.map Char.toLower)

/-- Splitting recursion behind pySplitChar: accumulate the current piece
(reversed) and cut at each separator. -/
def splitOnCharAux (sep : Char) : List Char → List Char → List (List Char)
  | [], acc => [acc.reverse]
  | c :: cs, acc =>
    if c = sep then acc.reverse :: splitOnCharAux sep cs []
    else splitOnCharAux sep cs (c :: acc)

/-- Python str.split(sep) for a one-character separator: the list of
pieces between occurrences of sep (empty pieces kept). -/
def pySplitChar (s : String) (sep : Char) : List String :=
  (splitOnCharAux sep s.data []).map String.mk

/-- Python membership test c in s for a single character. -/
def pyContainsChar (s : String) (c : Char) : Bool :=
  s.data.contains c

/-- Python str.startswith(p). -/
def strStarts (s p : String) : Bool :=
  p.data.isPrefixOf s.data

/-- Python slice s[:n] (character count). -/
def strTake (s : String) (n : Nat) : String :=
  String.mk (s.data.take n)

/-- Python slice s[n:] (character count). -/
def strDrop (s : String) (n : Nat) : String :=
  String.mk (s.data.drop n)

/-- Decimal digit run to a number: some value when the run is non-empty
and all characters are ASCII digits. -/
def digitsToNat (cs : List Char) : Option Nat :=
  match cs with
  | [] => none
  | _ =>
    if cs.all Char.isDigit then
      some (cs.foldl (fun n c => n * 10 + (c.toNat - '0'.toNat)) 0)
    else none

/-- Consumer mail provider domains skipped by the domain fallback
(entity_resolver.py lines 148-152). -/
def free_domains : List String :=
  ["gmail.com", "yahoo.com", "outlook.com", "hotmail.com",
   "aol.com", "icloud.com", "me.com", "live.com", "msn.com",
   "protonmail.com", "mail.com", "comcast.net", "verizon.net"]

/-- EntityResolver._extract_email_domain (entity_resolver.py lines 141-155):
the part after the first at-sign, lower-cased and trimmed; none when the
address has no at-sign or the domain is a consumer mail provider.  Note the
source may return an empty string (caller treats it as falsy). -/
def extract_email_domain (email : String) : Option String :=
  if pyContainsChar email '@' then
    let domain := pyStrip (pyLower ((pySplitChar email '@').getD 1 ""))
    if free_domains.contains domain then none else some domain
  else none

/-- The float literal 0.9 of the source, as an exact rational written in
normal form (numerator 9, denominator 10) so that kernel evaluation never
has to normalize a fraction. -/
def conf0_9 : ℚ := ⟨9, 10, by decide, by decide⟩

/-- The float literal 0.6 of the source, as an exact rational written in
normal form (numerator 3, denominator 5). -/
def conf0_6 : ℚ := ⟨3, 5, by decide, by decide⟩

/-- The direct-contact match built in step 1 of resolve. -/
def contactMatch (c : ContactRec) : EntityMatch :=
  { entity_type := "contacts", entity_id := c.id, entity_name := c.name,
    match_method := "email_direct", confidence := 1 }

/-- The linked-investor match built in step 2 of resolve. -/
def junctionInvestorMatch (inv : LinkedRec) : EntityMatch :=
  { entity_type := "investors", entity_id := inv.id, entity_name := inv.name,
    match_method := "email_junction", confidence := conf0_9 }

/-- The linked-organization match built in step 3 of resolve. -/
def junctionOrgMatch (org : LinkedRec) : EntityMatch :=
  { entity_type := "soccer_orgs", entity_id := org.id, entity_name := org.name,
    match_method := "email_junction", confidence := conf0_9 }

/-- The investor-by-domain match built in step 4 of resolve. -/
def domainInvestorMatch (inv : LinkedRec) : EntityMatch :=
  { entity_type := "investors", entity_id := inv.id, entity_name := inv.name,
    match_method := "domain_fallback", confidence := conf0_6 }

/-- The organization-by-domain match built in step 4 of resolve. -/
def domainOrgMatch (org : LinkedRec) : EntityMatch :=
  { entity_type := "soccer_orgs", entity_id := org.id, entity_name := org.name,
    match_method := "domain_fallback", confidence := conf0_6 }

/-- Steps 1-3 of EntityResolver.resolve (entity_resolver.py lines 169-209),
for an already-normalized email: the direct contact match, then every
investor and organization linked to that contact, threaded through the
seen set starting from the empty state. -/
def contactPhase (idx : ResolverIndex) (e : String) : ResState :=
  match idx.email_to_contacts.lookup e with
  | none => ([], [])
  | some c =>
    let sta := dedupInsert ([], []) (contactMatch c)
    let stb := ((idx.contact_to_investors.lookup c.id).getD []).foldl
      (fun s inv => dedupInsert s (junctionInvestorMatch inv)) sta
    ((idx.contact_to_orgs.lookup c.id).getD []).foldl
      (fun s org => dedupInsert s (junctionOrgMatch org)) stb

/-- Step 4 of EntityResolver.resolve (entity_resolver.py lines 211-241):
the domain fallback, continuing from the state of steps 1-3.  The empty
string case mirrors the falsiness test if domain of line 214. -/
def fallbackPhase (idx : ResolverIndex) (e : String) (st : ResState) : ResState :=
  match extract_email_domain e with
  | none => st
  | some d =>
    if d = "" then st
    else
      let st2 :=
        match idx.domain_to_investors.lookup d with
        | some inv => dedupInsert st (domainInvestorMatch inv)
        | none => st
      match idx.domain_to_orgs.lookup d with
      | some org => dedupInsert st2 (domainOrgMatch org)
      | none => st2

/-- EntityResolver.resolve (entity_resolver.py lines 157-243).
Step 1: direct contact by email; steps 2-3: investors and organizations
linked to that contact via junctions; step 4: domain fallback, gated on the
matches list being empty, exactly as the source gates it with
if not matches. -/
def resolve (idx : ResolverIndex) (email : String) : List EntityMatch :=
  let e := pyStrip (pyLower email)
  let st1 := contactPhase idx e
  if st1.1.isEmpty then (fallbackPhase idx e st1).1
  else st1.1

/-- EntityResolver.resolve_multiple (entity_resolver.py lines 245-257):
resolve each email in input order, deduplicating matches by
(entity_type, entity_id) across the whole batch. -/
def resolve_multiple (idx : ResolverIndex) (emails : List String) : List EntityMatch :=
  (emails.foldl (fun st email => (resolve idx email).foldl dedupInsert st)
    (([], []) : ResState)).1

/-- First-occurrence deduplication by match key, written as a plain
recursion independent of the fold in resolve_multiple; used to state that
resolve_multiple keeps exactly the first occurrence of each identity. -/
def firstOccur : List EntityMatch → List (String × String) → List EntityMatch
  | [], _ => []
  | m :: ms, seen =>
    if seen.contains (matchKey m) then firstOccur ms seen
    else m :: firstOccur ms (seen ++ [matchKey m])

/-- Action item record, from classifier.py (dataclass ActionItem).
The goal_relevance_score is an optional integer. -/
structure ActionItem where
  title : String
  summary : Option String
  recommended_action : Option String
  priority : String
  due_date : Option String
  goal_relevance_score : Option Int
  description : Option String
  deriving DecidableEq, Repr

/-- Classification record, from classifier.py (dataclass ClassificationResult). -/
structure ClassificationResult where
  primary_silo : String
  primary_entity_id : Option String
  primary_entity_name : Option String
  summary : String
  action_items : List ActionItem
  tags : List String
  sentiment : String
  deriving DecidableEq, Repr

/-- JSON value as it can appear in the goal_relevance_score field of the
parsed model response.  JSON null and an absent key are collapsed into the
none of the surrounding Option, matching dict.get which returns None for
both.  JSON numbers are modelled as integers, per the declared response
schema (goal_relevance_score is an integer or null). -/
inductive JVal where
  | jint (n : Int)
  | jstr (s : String)
  | jbool (b : Bool)
  | jlist
  | jdict
  deriving DecidableEq, Repr

/-- Python int(s) for a string argument: strip surrounding whitespace,
allow one leading plus or minus sign, then decimal digits; none models a
raised ValueError.  Digit-grouping underscores are not modelled (no input
in this codebase produces them). -/
def pyStrToInt (s : String) : Option Int :=
  match (pyStrip s).data with
  | '+' :: rest => (digitsToNat rest).map Int.ofNat
  | '-' :: rest => (digitsToNat rest).map (fun n => -(n : Int))
  | t => (digitsToNat t).map Int.ofNat

/-- Python int(x) on a JSON-decoded value x: identity on integers, True
and False convert to 1 and 0, numeric strings parse, anything else raises
(modelled as none, caught by the try/except in classifier.py line 180-183). -/
def pyInt : JVal → Option Int
  | .jint n => some n
  | .jstr s => pyStrToInt s
  | .jbool b => some (if b then 1 else 0)
  | .jlist => none
  | .jdict => none

/-- The goal_relevance_score postprocessing of classifier.py lines 177-183:
if the raw value is present, parse it as an integer and clamp into [1, 10];
a parse failure becomes none. -/
def clampGrs (g : Option JVal) : Option Int :=
  match g with
  | none => none
  | some v =>
    match pyInt v with
    | some n => some (max 1 (min 10 n))
    | none => none

/-- One entry of the action_items array of the parsed model response, with
the keys read by classifier.py lines 185-193.  Each field is none when the
key is absent or JSON null. -/
structure RawActionItem where
  title : Option String
  summary : Option String
  recommended_action : Option String
  priority : Option String
  due_date : Option String
  goal_relevance_score : Option JVal
  description : Option String
  deriving DecidableEq, Repr

/-- The parsed model response object, with the keys read by classifier.py
lines 176-202.  Each field is none when the key is absent or JSON null. -/
structure RawResponse where
  primary_silo : Option String
  primary_entity_id : Option String
  primary_entity_name : Option String
  summary : Option String
  sentiment : Option String
  action_items : Option (List RawActionItem)
  tags : Option (List String)
  deriving DecidableEq, Repr

/-- Combined outcome of the model call and response parsing in
MessageClassifier.classify (classifier.py lines 155-172): failure when the
call raised or the response text was not valid JSON (any exception lands in
the handlers of lines 205-210); success with the parsed object otherwise.
The call itself is external, so the outcome is a parameter. -/
inductive ModelOutcome where
  | failure
  | success (data : RawResponse)
  deriving DecidableEq, Repr

/-- Message dictionary as passed to classify: the subject, body, from and
text keys, each none when absent.  The from key (a Lean keyword, renamed
from_addr) and body only feed the prompt text, which is abstracted by the
ModelOutcome parameter; subject and text are read by the fallback path. -/
structure Message where
  subject : Option String
  body : Option String
  from_addr : Option String
  text : Option String
  deriving DecidableEq, Repr

/-- The preference scan of MessageClassifier._fallback_result
(classifier.py lines 220-228): the first resolved match whose type is
investors, else the first whose type is soccer_orgs, else the first whose
type is contacts; none when the list is empty or nothing matched. -/
def preferredEntity (resolved : List EntityMatch) : Option EntityMatch :=
  if resolved.isEmpty then none
  else
    ["investors", "soccer_orgs", "contacts"].findSome?
      (fun t => resolved.find? (fun e => e.entity_type = t))

/-- MessageClassifier._fallback_result (classifier.py lines 212-240). -/
def fallback_result (message : Message) (resolved_entities : List EntityMatch)
    (source_type : String) : ClassificationResult :=
  let prim := preferredEntity resolved_entities
  let subject := strTake (message.subject.getD (message.text.getD "")) 80
  { primary_silo := ((prim.map (fun m => m.entity_type)).getD "contacts")
    primary_entity_id := prim.map (fun m => m.entity_id)
    primary_entity_name := prim.map (fun m => m.entity_name)
    summary := (if source_type = "email" then "Email" else "Slack message") ++ ": " ++ subject
    action_items := []
    tags := ["unclassified"]
    sentiment := "neutral" }

/-- The per-action-item construction of classifier.py lines 176-193. -/
def buildActionItem (ai : RawActionItem) : ActionItem :=
  { title := ai.title.getD "Untitled task"
    summary := ai.summary
    recommended_action := ai.recommended_action
    priority := ai.priority.getD "medium"
    due_date := ai.due_date
    goal_relevance_score := clampGrs ai.goal_relevance_score
    description := ai.description }

/-- MessageClassifier.classify (classifier.py lines 111-210), as a function
of the model-call outcome: on success, project the parsed object with the
documented defaults; on failure, the rule-based fallback. -/
def classify (message : Message) (resolved_entities : List EntityMatch)
    (source_type : String) (outcome : ModelOutcome) : ClassificationResult :=
  match outcome with
  | .failure => fallback_result message resolved_entities source_type
  | .success data =>
    { primary_silo := data.primary_silo.getD "contacts"
      primary_entity_id := data.primary_entity_id
      primary_entity_name := data.primary_entity_name
      summary := data.summary.getD "Message processed"
      action_items := (data.action_items.getD []).map buildActionItem
      tags := data.tags.getD []
      sentiment := data.sentiment.getD "neutral" }

/-- The configured self addresses of gmail-scanner.py line 43. -/
def USER_EMAILS : List String :=
  ["mark@madeinmotion.co", "mark@mim.co", "markslater9@gmail.com"]

/-- gmail-scanner.py extract_email_address (lines 146-150): the part
between the first angle brackets, lower-cased and trimmed, or the whole
header trimmed and lower-cased. -/
def extract_email_address (header_value : String) : String :=
  if pyContainsChar header_value '<' then
    pyStrip (pyLower ((pySplitChar ((pySplitChar header_value '<').getD 1 "") '>').headD ""))
  else pyLower (pyStrip header_value)

/-- Strip leading and trailing double-quote characters, as Python
str.strip applied with a double-quote argument does. -/
def stripDQuotes (s : String) : String :=
  let l := s.data.dropWhile (fun c => c = '"')
  String.mk ((l.reverse.dropWhile (fun c => c = '"')).reverse)

/-- gmail-scanner.py extract_name (lines 153-158): the display name before
the angle bracket, whitespace-trimmed then quote-stripped; none when there
is no angle bracket or the name is empty. -/
def extract_name (header_value : String) : Option String :=
  if pyContainsChar header_value '<' then
    let name := stripDQuotes (pyStrip ((pySplitChar header_value '<').headD ""))
    if name = "" then none else some name
  else none

/-- gmail-scanner.py parse_email_list (lines 161-165): split the header on
commas, drop entries that trim to empty, extract each address. -/
def parse_email_list (header_value : String) : List String :=
  if header_value = "" then []
  else
    (((pySplitChar header_value ',').filter (fun e => pyStrip e != "")).map
      (fun e => extract_email_address (pyStrip e)))

/-- gmail-scanner.py determine_direction (lines 168-170). -/
def determine_direction (from_email : String) : String :=
  if USER_EMAILS.contains from_email then "outbound" else "inbound"

/-- The fields of the message-details dictionary built by
get_message_details that run() reads (gmail-scanner.py lines 132-143);
header values default to the empty string there.  The internal_date
timestamp only feeds the external date formatting of lines 253-259, which
no claim concerns, so it is not carried. -/
structure MsgDetails where
  from_header : String
  to_header : String
  cc_header : String
  subject : String
  body : String
  thread_id : String
  deriving DecidableEq, Repr

/-- Per-message input to the run() loop body (gmail-scanner.py lines
201-315): the message id, its fetched details, the result of the external
correspondence-duplicate query, and the outcome of the external model call
for this message. -/
structure MsgInput where
  msg_id : String
  details : MsgDetails
  is_duplicate : Bool
  outcome : ModelOutcome
  deriving Repr

/-- Correspondence row as inserted by AgentBase.log_correspondence from the
run() call site (gmail-scanner.py lines 266-278). -/
structure CorrespondenceRecord where
  entity_type : String
  entity_id : String
  direction : String
  subject : String
  snippet : Option String
  sender_email : String
  sender_name : Option String
  recipient_email : Option String
  message_id : String
  deriving DecidableEq, Repr

/-- Task row as inserted by AgentBase.create_task from the run() call site
(gmail-scanner.py lines 281-294). -/
structure TaskRecord where
  title : String
  summary : Option String
  recommended_action : Option String
  description : Option String
  entity_type : String
  entity_id : Option String
  priority : String
  due_date : Option String
  goal_relevance_score : Option Int
  gmail_thread_id : String
  gmail_message_id : String
  deriving DecidableEq, Repr

/-- Activity-log row as inserted by AgentBase.log_activity from the run()
call site (gmail-scanner.py lines 297-311), with the raw_data payload
flattened into fields. -/
structure ActivityRecord where
  action_type : String
  entity_type : String
  entity_id : Option String
  summary : String
  subject : String
  from_header : String
  direction : String
  tags : List String
  sentiment : String
  action_count : Nat
  source_id : String
  deriving DecidableEq, Repr

/-- Effect of one iteration of the run() message loop: the rows emitted to
the persistence layer and the counter increments.  records_processed is
advanced at the top of the loop (line 202), records_updated only at line
313 after all emissions. -/
structure StepOutput where
  correspondence : List CorrespondenceRecord
  tasks : List TaskRecord
  activities : List ActivityRecord
  processed_increment : Nat
  updated_increment : Nat
  deriving DecidableEq, Repr

/-- Participant extraction of gmail-scanner.py lines 214-218: sender, then
to-recipients, then cc-recipients. -/
def participant_emails (details : MsgDetails) : List String :=
  [extract_email_address details.from_header] ++ parse_email_list details.to_header
    ++ parse_email_list details.cc_header

/-- The classification produced for one message by run() (gmail-scanner.py
lines 220-247): none when resolution yields no matches (the message is
skipped); otherwise the classifier result, or, with no configured language
model client, the minimal result built from all_matches[0]. -/
def messageClassification (hasClassifier : Bool) (idx : ResolverIndex)
    (m : MsgInput) : Option ClassificationResult :=
  match resolve_multiple idx (participant_emails m.details) with
  | [] => none
  | first :: rest =>
    if hasClassifier then
      some (classify
        { subject := some m.details.subject, body := some m.details.body,
          from_addr := some m.details.from_header, text := none }
        (first :: rest) "email" m.outcome)
    else
      some
        { primary_silo := first.entity_type
          primary_entity_id := some first.entity_id
          primary_entity_name := some first.entity_name
          summary := "Email: " ++ strTake m.details.subject 80
          action_items := []
          tags := []
          sentiment := "neutral" }

/-- One iteration of the run() message loop (gmail-scanner.py lines
201-315): skip duplicates and unmatched messages; otherwise emit the
correspondence row (only when the primary entity id is non-null), one task
row per action item, and the activity row, then advance records_updated. -/
def processMessage (hasClassifier : Bool) (idx : ResolverIndex)
    (m : MsgInput) : StepOutput :=
  let skip : StepOutput :=
    { correspondence := [], tasks := [], activities := [],
      processed_increment := 1, updated_increment := 0 }
  if m.is_duplicate then skip
  else
    match messageClassification hasClassifier idx m with
    | none => skip
    | some result =>
      let from_email := extract_email_address m.details.from_header
      let from_name := extract_name m.details.from_header
      let to_emails := parse_email_list m.details.to_header
      let direction := determine_direction from_email
      let entity_type := result.primary_silo
      let entity_id := result.primary_entity_id
      let correspondence : List CorrespondenceRecord :=
        match entity_id with
        | some eid =>
          [{ entity_type := entity_type, entity_id := eid, direction := direction,
             subject := m.details.subject,
             snippet := if m.details.body = "" then none else some (strTake m.details.body 200),
             sender_email := from_email, sender_name := from_name,
             recipient_email := to_emails.head?, message_id := m.msg_id }]
        | none => []
      let tasks : List TaskRecord := result.action_items.map (fun a =>
        { title := a.title, summary := a.summary,
          recommended_action := a.recommended_action, description := a.description,
          entity_type := entity_type, entity_id := entity_id,
          priority := a.priority, due_date := a.due_date,
          goal_relevance_score := a.goal_relevance_score,
          gmail_thread_id := m.details.thread_id, gmail_message_id := m.msg_id })
      let activities : List ActivityRecord :=
        [{ action_type := "email_scanned", entity_type := entity_type,
           entity_id := entity_id, summary := result.summary,
           subject := m.details.subject, from_header := m.details.from_header,
           direction := direction, tags := result.tags, sentiment := result.sentiment,
           action_count := result.action_items.length,
           source_id := "gmail_" ++ m.msg_id }]
      { correspondence := correspondence, tasks := tasks, activities := activities,
        processed_increment := 1, updated_increment := 1 }

/-- Characters allowed in a URL scheme, per the Python standard library
urllib.parse (ASCII letters, digits, plus, minus, dot). -/
def isSchemeChar (c : Char) : Bool :=
  c.isAlpha || c.isDigit || c = '+' || c = '-' || c = '.'

/-- Model of urllib.parse.urlparse(url).hostname, the library call made by
EntityResolver._extract_domain: split off a scheme when a colon is present
and the text before it is a letter followed by scheme characters; take the
netloc only when the remainder starts with two slashes, up to the next
slash, question mark or hash; drop userinfo (up to the last at-sign) and a
colon-separated port (with square-bracket addresses kept whole); lower-case
the result, none when empty.  The library's rejection of a few exotic
characters that normalize to separators is not modelled; that path is
caught by the except handler and also yields none in the source. -/
def urlparse_hostname (url : String) : Option String :=
  let cs := url.data
  let pre := cs.takeWhile (fun c => c ≠ ':')
  let rest :=
    if pre.length < cs.length ∧ pre ≠ [] ∧ (pre.headD 'a').isAlpha ∧ pre.all isSchemeChar
    then cs.drop (pre.length + 1) else cs
  let netloc :=
    match rest with
    | '/' :: '/' :: r => r.takeWhile (fun c => c ≠ '/' ∧ c ≠ '?' ∧ c ≠ '#')
    | _ => []
  let hostinfo := (netloc.reverse.takeWhile (fun c => c ≠ '@')).reverse
  let host :=
    match hostinfo with
    | '[' :: r => r.takeWhile (fun c => c ≠ ']')
    | _ => hostinfo.takeWhile (fun c => c ≠ ':')
  if host.isEmpty then none else some (pyLower (String.mk host))

/-- EntityResolver._extract_domain (entity_resolver.py lines 123-139):
empty input gives none; trim and lower-case; prepend a scheme when the
string does not start with http; take the parsed hostname (empty when the
parser finds none); strip one leading www. prefix; empty result gives
none. -/
def extract_domain (url : String) : Option String :=
  if url = "" then none
  else
    let u := pyLower (pyStrip url)
    let u := if strStarts u "http" then u else "https://" ++ u
    let domain := (urlparse_hostname u).getD ""
    let domain := if strStarts domain "www." then strDrop domain 4 else domain
    if domain = "" then none else some domain

/-! Concrete fixtures used by witness and counterexample theorems. -/

/-- A contact record used by the concrete scenarios. -/
def sampleContact : ContactRec :=
  { id := "c1", name := "Alice", organization := none }

/-- An investor record linked to the sample contact. -/
def sampleInvestor : LinkedRec :=
  { id := "i1", name := "Acme Fund" }

/-- A concrete resolver index: one contact reachable by direct email and
linked to one investor; domain entries for acme.com (investor and
organization) and greenhillcapital.com (investor only). -/
def sampleIndex : ResolverIndex :=
  { email_to_contacts := [("alice@acme.com", sampleContact)]
    contact_to_investors := [("c1", [sampleInvestor])]
    contact_to_orgs := []
    domain_to_investors := [("acme.com", sampleInvestor),
                            ("greenhillcapital.com", { id := "i2", name := "Greenhill Capital" })]
    domain_to_orgs := [("acme.com", { id := "o1", name := "Acme FC" })] }

/-- A message dictionary with no keys. -/
def emptyMessage : Message :=
  { subject := none, body := none, from_addr := none, text := none }

/-- A raw action item carrying only a goal_relevance_score value. -/
def rawActionItemOfGrs (g : Option JVal) : RawActionItem :=
  { title := none, summary := none, recommended_action := none, priority := none,
    due_date := none, goal_relevance_score := g, description := none }

/-- A parsed model response whose action items carry the four
goal_relevance_score inputs of the claim: 0, 11, the string abc, absent. -/
def grsResponse : RawResponse :=
  { primary_silo := none, primary_entity_id := none, primary_entity_name := none,
    summary := none, sentiment := none,
    action_items := some [rawActionItemOfGrs (some (.jint 0)),
                          rawActionItemOfGrs (some (.jint 11)),
                          rawActionItemOfGrs (some (.jstr "abc")),
                          rawActionItemOfGrs none],
    tags := none }

/-- A parsed model response with a single action item whose
goal_relevance_score is the out-of-range integer 0. -/
def grsZeroResponse : RawResponse :=
  { primary_silo := none, primary_entity_id := none, primary_entity_name := none,
    summary := none, sentiment := none,
    action_items := some [rawActionItemOfGrs (some (.jint 0))],
    tags := none }

/-- Details of a message from the sample contact. -/
def c6Details : MsgDetails :=
  { from_header := "Alice <alice@acme.com>", to_header := "", cc_header := "",
    subject := "Hello", body := "", thread_id := "t1" }

/-- The raw action item of the c6 scenario response. -/
def c6RawAction : RawActionItem :=
  { title := some "Reply to Alice", summary := none, recommended_action := none,
    priority := some "low", due_date := none, goal_relevance_score := none,
    description := none }

/-- A parsed model response with a null primary entity id and one action
item. -/
def c6Response : RawResponse :=
  { primary_silo := some "contacts", primary_entity_id := none, primary_entity_name := none,
    summary := some "greeting", sentiment := some "neutral",
    action_items := some [c6RawAction],
    tags := some [] }

/-- A non-duplicate message whose model response has a null primary
entity id. -/
def c6Msg : MsgInput :=
  { msg_id := "m1", details := c6Details, is_duplicate := false,
    outcome := .success c6Response }

/-- The built action item of the c6 scenario. -/
def c6Action : ActionItem :=
  { title := "Reply to Alice", summary := none, recommended_action := none,
    priority := "low", due_date := none, goal_relevance_score := none,
    description := none }

/-- The classification run() derives for c6Msg. -/
def c6Result : ClassificationResult :=
  { primary_silo := "contacts", primary_entity_id := none, primary_entity_name := none,
    summary := "greeting",
    action_items := [c6Action],
    tags := [], sentiment := "neutral" }

/-- Details of a message from the sample contact, for the no-classifier
scenario. -/
def c7Details : MsgDetails :=
  { from_header := "alice@acme.com", to_header := "", cc_header := "",
    subject := "Ping", body := "", thread_id := "t2" }

/-- A non-duplicate message processed with no configured language-model
client (the outcome field is then never read). -/
def c7Msg : MsgInput :=
  { msg_id := "m2", details := c7Details, is_duplicate := false, outcome := .failure }

/-! Helper lemmas about the deduplicating state. -/

theorem dedupInsert_fst (st : ResState) (m : EntityMatch) :
    (dedupInsert st m).1 = st.1 ∨ (dedupInsert st m).1 = st.1 ++ [m] := by
  by_cases hc : matchKey m ∈ st.2
  · left; simp [dedupInsert, hc]
  · right; simp [dedupInsert, hc]

theorem dedupInsert_of_mem {st : ResState} {m : EntityMatch}
    (hc : matchKey m ∈ st.2) : dedupInsert st m = st := by
  simp [dedupInsert, hc]

theorem dedupInsert_of_not_mem {st : ResState} {m : EntityMatch}
    (hc : matchKey m ∉ st.2) : dedupInsert st m = (st.1 ++ [m], st.2 ++ [matchKey m]) := by
  simp [dedupInsert, hc]

theorem foldl_dedupInsert_decompose {α : Type} (f : α → EntityMatch) :
    ∀ (l : List α) (st : ResState), ∃ ys : List EntityMatch,
      (l.foldl (fun s a => dedupInsert s (f a)) st).1 = st.1 ++ ys ∧
      ∀ y ∈ ys, ∃ a ∈ l, y = f a := by
  intro l
  induction l with
  | nil => intro st; exact ⟨[], by simp⟩
  | cons a l ih =>
    intro st
    obtain ⟨ys, hys, hmem⟩ := ih (dedupInsert st (f a))
    rcases dedupInsert_fst st (f a) with h | h
    · refine ⟨ys, ?_, ?_⟩
      · simpa [h] using hys
      · intro y hy
        obtain ⟨b, hb, hyb⟩ := hmem y hy
        exact ⟨b, List.mem_cons_of_mem a hb, hyb⟩
    · refine ⟨f a :: ys, ?_, ?_⟩
      · simpa [h, List.append_assoc] using hys
      · intro y hy
        rcases List.mem_cons.mp hy with hy | hy
        · exact ⟨a, List.mem_cons_self a l, hy⟩
        · obtain ⟨b, hb, hyb⟩ := hmem y hy
          exact ⟨b, List.mem_cons_of_mem a hb, hyb⟩

/-- The seen set mirrors the keys of the accumulated matches, and those
keys stay pairwise distinct. -/
def SeenInv (st : ResState) : Prop :=
  st.2 = st.1.map matchKey ∧ (st.1.map matchKey).Nodup

theorem seenInv_dedupInsert {st : ResState} {m : EntityMatch} (h : SeenInv st) :
    SeenInv (dedupInsert st m) := by
  obtain ⟨hkeys, hnd⟩ := h
  by_cases hc : matchKey m ∈ st.2
  · rw [dedupInsert_of_mem hc]; exact ⟨hkeys, hnd⟩
  · have hmem : matchKey m ∉ st.1.map matchKey := by rw [← hkeys]; exact hc
    rw [dedupInsert_of_not_mem hc]
    refine ⟨?_, ?_⟩ <;> simp [hkeys, List.nodup_append, hnd, hmem]

theorem seenInv_foldl {α : Type} (f : α → EntityMatch) :
    ∀ (l : List α) (st : ResState), SeenInv st →
      SeenInv (l.foldl (fun s a => dedupInsert s (f a)) st) := by
  intro l
  induction l with
  | nil => intro st h; simpa using h
  | cons a l ih =>
    intro st h
    exact ih (dedupInsert st (f a)) (seenInv_dedupInsert h)

theorem foldl_dedupInsert_eq_firstOccur :
    ∀ (l : List EntityMatch) (st : ResState),
      (l.foldl dedupInsert st).1 = st.1 ++ firstOccur l st.2 := by
  intro l
  induction l with
  | nil => intro st; simp [firstOccur]
  | cons m ms ih =>
    intro st
    by_cases hc : matchKey m ∈ st.2
    · have hco : st.2.contains (matchKey m) = true := by simpa using hc
      rw [List.foldl_cons, dedupInsert_of_mem hc, firstOccur, hco]
      simp only [if_pos]
      exact ih st
    · have hco : st.2.contains (matchKey m) = false := by simpa using hc
      rw [List.foldl_cons, dedupInsert_of_not_mem hc, firstOccur, hco]
      simp only [Bool.false_eq_true, if_false]
      rw [ih (st.1 ++ [m], st.2 ++ [matchKey m])]
      simp

theorem chain_ge_const (q : ℚ) :
    ∀ (l : List ℚ), (∀ x ∈ l, x = q) → List.Chain' (· ≥ ·) l := by
  intro l
  induction l with
  | nil => intro _; simp
  | cons p l ih =>
    intro h
    cases l with
    | nil => simp
    | cons r l =>
      rw [List.chain'_cons]
      constructor
      · rw [h p (by simp), h r (by simp)]
      · exact ih (fun x hx => h x (List.mem_cons_of_mem p hx))

theorem chain_ge_cons_const (p q : ℚ) (hq : q ≤ p) :
    ∀ (l : List ℚ), (∀ x ∈ l, x = q) → List.Chain' (· ≥ ·) (p :: l) := by
  intro l h
  cases l with
  | nil => simp
  | cons r l =>
    rw [List.chain'_cons]
    constructor
    · rw [h r (by simp)]; exact hq
    · exact chain_ge_const q _ h

theorem optInsert_decompose (st : ResState) (m : EntityMatch) :
    ∃ ys, (dedupInsert st m).1 = st.1 ++ ys ∧ ∀ y ∈ ys, y = m := by
  rcases dedupInsert_fst st m with h | h
  · exact ⟨[], by simp [h], by simp⟩
  · exact ⟨[m], by simp [h], by simp⟩

theorem contactPhase_none {idx : ResolverIndex} {e : String}
    (h : idx.email_to_contacts.lookup e = none) :
    contactPhase idx e = ([], []) := by
  unfold contactPhase
  rw [h]

theorem contactPhase_some {idx : ResolverIndex} {e : String} {c : ContactRec}
    (h : idx.email_to_contacts.lookup e = some c) :
    ∃ ys, (contactPhase idx e).1 = contactMatch c :: ys ∧
      ∀ y ∈ ys, (∃ inv, y = junctionInvestorMatch inv) ∨ (∃ org, y = junctionOrgMatch org) := by
  unfold contactPhase
  rw [h]
  dsimp only
  obtain ⟨ys1, hys1, hm1⟩ := foldl_dedupInsert_decompose junctionInvestorMatch
    ((idx.contact_to_investors.lookup c.id).getD []) (dedupInsert ([], []) (contactMatch c))
  obtain ⟨ys2, hys2, hm2⟩ := foldl_dedupInsert_decompose junctionOrgMatch
    ((idx.contact_to_orgs.lookup c.id).getD [])
    (((idx.contact_to_investors.lookup c.id).getD []).foldl
      (fun s inv => dedupInsert s (junctionInvestorMatch inv)) (dedupInsert ([], []) (contactMatch c)))
  have hfirst : (dedupInsert (([], []) : ResState) (contactMatch c)).1 = [contactMatch c] := by
    rw [dedupInsert_of_not_mem (by simp)]
    simp
  refine ⟨ys1 ++ ys2, ?_, ?_⟩
  · rw [hys2, hys1, hfirst]
    simp
  · intro y hy
    rcases List.mem_append.mp hy with hy | hy
    · obtain ⟨inv, _, hyi⟩ := hm1 y hy
      exact Or.inl ⟨inv, hyi⟩
    · obtain ⟨org, _, hyo⟩ := hm2 y hy
      exact Or.inr ⟨org, hyo⟩

theorem fallbackPhase_decompose (idx : ResolverIndex) (e : String) (st : ResState) :
    ∃ ys, (fallbackPhase idx e st).1 = st.1 ++ ys ∧
      ∀ y ∈ ys, (∃ inv, y = domainInvestorMatch inv) ∨ (∃ org, y = domainOrgMatch org) := by
  unfold fallbackPhase
  cases hd : extract_email_domain e with
  | none => exact ⟨[], by simp, by simp⟩
  | some d =>
    by_cases hde : d = ""
    · simp only [hde, if_pos]
      exact ⟨[], by simp, by simp⟩
    · simp only [hde, if_neg, not_false_iff]
      cases hinv : idx.domain_to_investors.lookup d with
      | none =>
        cases horg : idx.domain_to_orgs.lookup d with
        | none => exact ⟨[], by simp, by simp⟩
        | some org =>
          obtain ⟨ys, hys, hm⟩ := optInsert_decompose st (domainOrgMatch org)
          exact ⟨ys, hys, fun y hy => Or.inr ⟨org, hm y hy⟩⟩
      | some inv =>
        obtain ⟨ys1, hys1, hm1⟩ := optInsert_decompose st (domainInvestorMatch inv)
        cases horg : idx.domain_to_orgs.lookup d with
        | none => exact ⟨ys1, hys1, fun y hy => Or.inl ⟨inv, hm1 y hy⟩⟩
        | some org =>
          obtain ⟨ys2, hys2, hm2⟩ := optInsert_decompose (dedupInsert st (domainInvestorMatch inv))
            (domainOrgMatch org)
          refine ⟨ys1 ++ ys2, ?_, ?_⟩
          · rw [hys2, hys1]
            simp
          · intro y hy
            rcases List.mem_append.mp hy with hy | hy
            · exact Or.inl ⟨inv, hm1 y hy⟩
            · exact Or.inr ⟨org, hm2 y hy⟩

theorem seenInv_empty : SeenInv (([], []) : ResState) := ⟨rfl, by simp⟩

theorem seenInv_contactPhase (idx : ResolverIndex) (e : String) :
    SeenInv (contactPhase idx e) := by
  unfold contactPhase
  cases idx.email_to_contacts.lookup e with
  | none => exact seenInv_empty
  | some c =>
    dsimp only
    exact seenInv_foldl junctionOrgMatch _ _
      (seenInv_foldl junctionInvestorMatch _ _ (seenInv_dedupInsert seenInv_empty))

theorem seenInv_fallbackPhase (idx : ResolverIndex) (e : String) (st : ResState)
    (h : SeenInv st) : SeenInv (fallbackPhase idx e st) := by
  unfold fallbackPhase
  cases extract_email_domain e with
  | none => exact h
  | some d =>
    by_cases hde : d = ""
    · simpa [hde] using h
    · simp only [hde, if_neg, not_false_iff]
      cases idx.domain_to_investors.lookup d with
      | none =>
        cases idx.domain_to_orgs.lookup d with
        | none => exact h
        | some org => exact seenInv_dedupInsert h
      | some inv =>
        cases idx.domain_to_orgs.lookup d with
        | none => exact seenInv_dedupInsert h
        | some org => exact seenInv_dedupInsert (seenInv_dedupInsert h)

theorem resolve_of_contact {idx : ResolverIndex} {email : String} {c : ContactRec}
    (h : idx.email_to_contacts.lookup (pyStrip (pyLower email)) = some c) :
    ∃ ys, resolve idx email = contactMatch c :: ys ∧
      ∀ y ∈ ys, (∃ inv, y = junctionInvestorMatch inv) ∨ (∃ org, y = junctionOrgMatch org) := by
  obtain ⟨ys, hys, hm⟩ := contactPhase_some h
  refine ⟨ys, ?_, hm⟩
  unfold resolve
  dsimp only
  rw [hys]
  simp

theorem resolve_of_no_contact {idx : ResolverIndex} {email : String}
    (h : idx.email_to_contacts.lookup (pyStrip (pyLower email)) = none) :
    resolve idx email = (fallbackPhase idx (pyStrip (pyLower email)) ([], [])).1 := by
  unfold resolve
  dsimp only
  rw [contactPhase_none h]
  simp

theorem seenInv_foldl_dedup :
    ∀ (l : List EntityMatch) (st : ResState), SeenInv st →
      SeenInv (l.foldl dedupInsert st) := by
  intro l
  induction l with
  | nil => intro st h; simpa using h
  | cons m ms ih => intro st h; exact ih _ (seenInv_dedupInsert h)

theorem resolve_keys_nodup (idx : ResolverIndex) (email : String) :
    ((resolve idx email).map matchKey).Nodup := by
  unfold resolve
  dsimp only
  by_cases h : (contactPhase idx (pyStrip (pyLower email))).1.isEmpty = true
  · simp only [h, if_pos]
    exact (seenInv_fallbackPhase idx _ _ (seenInv_contactPhase idx _)).2
  · simp only [h, if_neg, Bool.not_eq_true]
    exact (seenInv_contactPhase idx _).2

theorem seenInv_resolveFold (idx : ResolverIndex) :
    ∀ (emails : List String) (st : ResState), SeenInv st →
      SeenInv (emails.foldl (fun st email => (resolve idx email).foldl dedupInsert st) st) := by
  intro emails
  induction emails with
  | nil => intro st h; simpa using h
  | cons e es ih => intro st h; exact ih _ (seenInv_foldl_dedup _ _ h)

theorem resolve_multiple_keys_nodup (idx : ResolverIndex) (emails : List String) :
    ((resolve_multiple idx emails).map matchKey).Nodup := by
  unfold resolve_multiple
  exact (seenInv_resolveFold idx emails ([], []) seenInv_empty).2

theorem resolve_multiple_eq_firstOccur (idx : ResolverIndex) (emails : List String) :
    resolve_multiple idx emails = firstOccur ((emails.map (resolve idx)).flatten) [] := by
  unfold resolve_multiple
  rw [← List.foldl_map (resolve idx)
    (fun st l => List.foldl dedupInsert st l) emails (([], []) : ResState)]
  rw [← List.foldl_flatten dedupInsert (([], []) : ResState) (emails.map (resolve idx))]
  rw [foldl_dedupInsert_eq_firstOccur]
  simp

theorem conf0_9_eq : conf0_9 = 9/10 := by
  rw [conf0_9, Rat.mk'_eq_divInt]
  norm_num [Rat.divInt_eq_div]

theorem conf0_6_eq : conf0_6 = 3/5 := by
  rw [conf0_6, Rat.mk'_eq_divInt]
  norm_num [Rat.divInt_eq_div]

/-- C1: for every email, if resolve finds a direct contact match in step 1,
the result contains no match with match_method domain_fallback, regardless
of the investor or organization links of that contact; the domain fallback
matches appear only when step 1 found no contact at all. -/
theorem claim_C1_direct_contact_suppresses_fallback (idx : ResolverIndex) (email : String)
    (h : (idx.email_to_contacts.lookup (pyStrip (pyLower email))).isSome = true) :
    ∀ m ∈ resolve idx email, m.match_method ≠ "domain_fallback" := by
  obtain ⟨c, hc⟩ := Option.isSome_iff_exists.mp h
  obtain ⟨ys, hys, hm⟩ := resolve_of_contact hc
  intro m hmem
  rw [hys] at hmem
  rcases List.mem_cons.mp hmem with hmc | hmy
  · subst hmc
    show "email_direct" ≠ "domain_fallback"
    decide
  · rcases hm m hmy with ⟨inv, hi⟩ | ⟨org, ho⟩
    · subst hi
      show "email_junction" ≠ "domain_fallback"
      decide
    · subst ho
      show "email_junction" ≠ "domain_fallback"
      decide

/-- Witness for C1: the sample contact is found directly and no
domain_fallback match appears. -/
theorem claim_C1_witness :
    (sampleIndex.email_to_contacts.lookup (pyStrip (pyLower "Alice@Acme.com "))).isSome = true ∧
    ∀ m ∈ resolve sampleIndex "Alice@Acme.com ", m.match_method ≠ "domain_fallback" :=
  ⟨by decide,
   claim_C1_direct_contact_suppresses_fallback sampleIndex "Alice@Acme.com " (by decide)⟩

/-- C2: resolve never returns two matches with the same
(entity_type, entity_id); resolve_multiple resolves each email in input
order and keeps exactly the first occurrence of each identity across the
whole batch (firstOccur of the concatenated per-email results). -/
theorem claim_C2_identity_dedup (idx : ResolverIndex) (e : String) (emails : List String) :
    ((resolve idx e).map matchKey).Nodup ∧
    ((resolve_multiple idx emails).map matchKey).Nodup ∧
    resolve_multiple idx emails = firstOccur ((emails.map (resolve idx)).flatten) [] :=
  ⟨resolve_keys_nodup idx e, resolve_multiple_keys_nodup idx emails,
   resolve_multiple_eq_firstOccur idx emails⟩

/-- C9: every match resolve emits carries exactly confidence 1 with method
email_direct, 9/10 with email_junction, or 3/5 with domain_fallback; no
other pairing or value occurs. -/
theorem claim_C9_confidence_values (idx : ResolverIndex) (email : String) :
    ∀ m ∈ resolve idx email,
      (m.match_method = "email_direct" ∧ m.confidence = 1) ∨
      (m.match_method = "email_junction" ∧ m.confidence = 9/10) ∨
      (m.match_method = "domain_fallback" ∧ m.confidence = 3/5) := by
  intro m hmem
  cases hl : idx.email_to_contacts.lookup (pyStrip (pyLower email)) with
  | some c =>
    obtain ⟨ys, hys, hm⟩ := resolve_of_contact hl
    rw [hys] at hmem
    rcases List.mem_cons.mp hmem with hmc | hmy
    · subst hmc
      exact Or.inl ⟨rfl, rfl⟩
    · rcases hm m hmy with ⟨inv, hi⟩ | ⟨org, ho⟩
      · subst hi
        exact Or.inr (Or.inl ⟨rfl, conf0_9_eq⟩)
      · subst ho
        exact Or.inr (Or.inl ⟨rfl, conf0_9_eq⟩)
  | none =>
    rw [resolve_of_no_contact hl] at hmem
    obtain ⟨ys, hys, hm⟩ := fallbackPhase_decompose idx (pyStrip (pyLower email)) ([], [])
    rw [hys] at hmem
    simp only [List.nil_append] at hmem
    rcases hm m hmem with ⟨inv, hi⟩ | ⟨org, ho⟩
    · subst hi
      exact Or.inr (Or.inr ⟨rfl, conf0_6_eq⟩)
    · subst ho
      exact Or.inr (Or.inr ⟨rfl, conf0_6_eq⟩)

/-- Witness for C9: the direct match of the sample scenario. -/
theorem claim_C9_witness :
    contactMatch sampleContact ∈ resolve sampleIndex "alice@acme.com" ∧
    (((contactMatch sampleContact).match_method = "email_direct" ∧
        (contactMatch sampleContact).confidence = 1) ∨
      ((contactMatch sampleContact).match_method = "email_junction" ∧
        (contactMatch sampleContact).confidence = 9/10) ∨
      ((contactMatch sampleContact).match_method = "domain_fallback" ∧
        (contactMatch sampleContact).confidence = 3/5)) :=
  ⟨by decide,
   claim_C9_confidence_values sampleIndex "alice@acme.com" (contactMatch sampleContact)
     (by decide)⟩

/-- C10: within one resolve call the confidence sequence is non-increasing
(direct before junction, fallback only alone), by construction order and
not by sorting; resolve_multiple gives no such guarantee across emails, as
the concrete sample shows (fallback 3/5 from the first email precedes the
direct 1 of the second). -/
theorem claim_C10_confidence_monotone :
    (∀ (idx : ResolverIndex) (email : String),
      List.Chain' (· ≥ ·) ((resolve idx email).map (fun m => m.confidence))) ∧
    ¬ List.Chain' (· ≥ ·)
      ((resolve_multiple sampleIndex ["jane@greenhillcapital.com", "alice@acme.com"]).map
        (fun m => m.confidence)) := by
  constructor
  · intro idx email
    cases hl : idx.email_to_contacts.lookup (pyStrip (pyLower email)) with
    | some c =>
      obtain ⟨ys, hys, hm⟩ := resolve_of_contact hl
      rw [hys]
      rw [List.map_cons]
      apply chain_ge_cons_const ((contactMatch c).confidence) conf0_9
      · rw [conf0_9_eq]
        show (9 : ℚ)/10 ≤ 1
        norm_num
      · intro x hx
        obtain ⟨y, hy, hxy⟩ := List.mem_map.mp hx
        rcases hm y hy with ⟨inv, hi⟩ | ⟨org, ho⟩
        · rw [← hxy, hi]; rfl
        · rw [← hxy, ho]; rfl
    | none =>
      rw [resolve_of_no_contact hl]
      obtain ⟨ys, hys, hm⟩ := fallbackPhase_decompose idx (pyStrip (pyLower email)) ([], [])
      rw [hys]
      simp only [List.nil_append]
      apply chain_ge_const conf0_6
      intro x hx
      obtain ⟨y, hy, hxy⟩ := List.mem_map.mp hx
      rcases hm y hy with ⟨inv, hi⟩ | ⟨org, ho⟩
      · rw [← hxy, hi]; rfl
      · rw [← hxy, ho]; rfl
  · have heq : ((resolve_multiple sampleIndex
        ["jane@greenhillcapital.com", "alice@acme.com"]).map (fun m => m.confidence))
        = [conf0_6, 1, conf0_9] := by decide
    rw [heq]
    intro hch
    have h1 : conf0_6 ≥ 1 := (List.chain'_cons.mp hch).1
    exact absurd h1 (by decide)

theorem preferredEntity_characterization (res : List EntityMatch) :
    preferredEntity res =
      (match res.find? (fun e => e.entity_type = "investors") with
       | some m => some m
       | none =>
         match res.find? (fun e => e.entity_type = "soccer_orgs") with
         | some m => some m
         | none => res.find? (fun e => e.entity_type = "contacts")) := by
  unfold preferredEntity
  by_cases hres : res.isEmpty = true
  · have h0 : res = [] := by
      cases res with
      | nil => rfl
      | cons a l => simp at hres
    subst h0
    simp [List.find?]
  · simp only [hres, Bool.false_eq_true, if_false, List.findSome?_cons, List.findSome?_nil]
    cases res.find? (fun e => e.entity_type = "investors") with
    | some m => rfl
    | none =>
      cases res.find? (fun e => e.entity_type = "soccer_orgs") with
      | some m => rfl
      | none =>
        cases res.find? (fun e => e.entity_type = "contacts") with
        | some m => rfl
        | none => rfl

/-- C3: on a model-call exception or a response that fails to parse,
classify returns the rule-based fallback: the primary entity is the first
resolved match in the preference order investors, then soccer_orgs, then
contacts (contacts silo with null entity when nothing matches), the
summary is built from the truncated subject (or slack text), tags are
exactly the singleton unclassified, the sentiment is neutral and there are
no action items. -/
theorem claim_C3_failure_gives_rule_based_fallback (msg : Message)
    (res : List EntityMatch) (st : String) :
    (classify msg res st ModelOutcome.failure).action_items = [] ∧
    (classify msg res st ModelOutcome.failure).tags = ["unclassified"] ∧
    (classify msg res st ModelOutcome.failure).sentiment = "neutral" ∧
    (classify msg res st ModelOutcome.failure).summary =
      (if st = "email" then "Email" else "Slack message") ++ ": "
        ++ strTake (msg.subject.getD (msg.text.getD "")) 80 ∧
    (classify msg res st ModelOutcome.failure).primary_silo =
      ((preferredEntity res).map (fun m => m.entity_type)).getD "contacts" ∧
    (classify msg res st ModelOutcome.failure).primary_entity_id =
      (preferredEntity res).map (fun m => m.entity_id) ∧
    (classify msg res st ModelOutcome.failure).primary_entity_name =
      (preferredEntity res).map (fun m => m.entity_name) ∧
    preferredEntity res =
      (match res.find? (fun e => e.entity_type = "investors") with
       | some m => some m
       | none =>
         match res.find? (fun e => e.entity_type = "soccer_orgs") with
         | some m => some m
         | none => res.find? (fun e => e.entity_type = "contacts")) :=
  ⟨rfl, rfl, rfl, rfl, rfl, rfl, rfl, preferredEntity_characterization res⟩

/-- C4: on a successfully parsed response, every action item's
goal_relevance_score is normalized by parsing as an integer and clamping
into [1, 10], with non-numeric or missing values becoming null; the four
inputs 0, 11, the string abc, and absent normalize to 1, 10, null, null. -/
theorem claim_C4_grs_parse_and_clamp (msg : Message) (res : List EntityMatch)
    (st : String) (data : RawResponse) :
    ((classify msg res st (ModelOutcome.success data)).action_items.map
        (fun a => a.goal_relevance_score))
      = (data.action_items.getD []).map (fun ai =>
          match ai.goal_relevance_score with
          | none => none
          | some v =>
            match pyInt v with
            | some n => some (max 1 (min 10 n))
            | none => none) ∧
    ((classify emptyMessage [] "email" (ModelOutcome.success grsResponse)).action_items.map
        (fun a => a.goal_relevance_score)) = [some 1, some 10, none, none] := by
  constructor
  · show ((data.action_items.getD []).map buildActionItem).map
        (fun a => a.goal_relevance_score) = _
    rw [List.map_map]
    rfl
  · decide

theorem clampGrs_bounds {g : Option JVal} {n : Int} (h : clampGrs g = some n) :
    1 ≤ n ∧ n ≤ 10 := by
  cases g with
  | none => simp [clampGrs] at h
  | some v =>
    rw [show clampGrs (some v) = (match pyInt v with
        | some k => some (max 1 (min 10 k))
        | none => none) from rfl] at h
    cases hp : pyInt v with
    | none => rw [hp] at h; simp at h
    | some k =>
      rw [hp] at h
      simp only [Option.some.injEq] at h
      subst h
      exact ⟨le_max_left 1 _, max_le (by norm_num) (min_le_left 10 k)⟩

/-- C5 counterexample: the out-of-range input 0 is clamped to 1, not
coerced to null, so the out-of-range-becomes-null reading is false. -/
theorem claim_C5_counterexample :
    ((classify emptyMessage [] "email" (ModelOutcome.success grsZeroResponse)).action_items.map
      (fun a => a.goal_relevance_score)) = [some 1] ∧ (some (1 : Int) : Option Int) ≠ none :=
  ⟨by decide, by decide⟩

/-- C5 amended: every action item classify produces has its
goal_relevance_score, when present, inside [1, 10]; non-numeric input
(string, list, object) is coerced to null, while out-of-range numeric
input is clamped into the range, never left unclamped and never nulled. -/
theorem claim_C5_amended_grs_invariant (msg : Message) (res : List EntityMatch)
    (st : String) (outcome : ModelOutcome) :
    ((classify msg res st outcome).action_items.Forall (fun a =>
      match a.goal_relevance_score with
      | some n => 1 ≤ n ∧ n ≤ 10
      | none => True)) ∧
    clampGrs (some (JVal.jstr "abc")) = none ∧ clampGrs (some JVal.jlist) = none ∧
    clampGrs (some JVal.jdict) = none ∧
    clampGrs (some (JVal.jint 0)) = some 1 ∧ clampGrs (some (JVal.jint 11)) = some 10 := by
  refine ⟨?_, by decide, by decide, by decide, by decide, by decide⟩
  rw [List.forall_iff_forall_mem]
  intro a ha
  cases outcome with
  | failure => simp [classify, fallback_result] at ha
  | success data =>
    obtain ⟨ai, _, hab⟩ := List.mem_map.mp ha
    subst hab
    show (match clampGrs ai.goal_relevance_score with
      | some n => 1 ≤ n ∧ n ≤ 10
      | none => True)
    cases hg : clampGrs ai.goal_relevance_score with
    | none => trivial
    | some n => exact clampGrs_bounds hg

/-- C6 counterexample: for a message whose classification has a null
primary entity id, run() emits no correspondence row, but it does emit one
task row per action item and the activity row, and it advances
records_updated — contradicting the claim that nothing is emitted and the
updated counter stays. -/
theorem claim_C6_counterexample :
    messageClassification true sampleIndex c6Msg = some c6Result ∧
    c6Result.primary_entity_id = none ∧
    (processMessage true sampleIndex c6Msg).correspondence = [] ∧
    (processMessage true sampleIndex c6Msg).tasks ≠ [] ∧
    (processMessage true sampleIndex c6Msg).activities ≠ [] ∧
    (processMessage true sampleIndex c6Msg).updated_increment = 1 :=
  ⟨by decide, by decide, by decide, by decide, by decide, by decide⟩

/-- C6 amended: when the classification of a non-duplicate, resolvable
message has a null primary entity id, only the correspondence row is
suppressed; one task row per action item (with null entity id) and one
activity row are still emitted, and the message advances both the
processed and the updated counter. -/
theorem claim_C6_amended_null_entity_emission (hasClassifier : Bool) (idx : ResolverIndex)
    (m : MsgInput) (r : ClassificationResult)
    (hdup : m.is_duplicate = false)
    (hclass : messageClassification hasClassifier idx m = some r)
    (hnull : r.primary_entity_id = none) :
    (processMessage hasClassifier idx m).correspondence = [] ∧
    (processMessage hasClassifier idx m).tasks.length = r.action_items.length ∧
    (∀ t ∈ (processMessage hasClassifier idx m).tasks, t.entity_id = none) ∧
    (processMessage hasClassifier idx m).activities.length = 1 ∧
    (processMessage hasClassifier idx m).processed_increment = 1 ∧
    (processMessage hasClassifier idx m).updated_increment = 1 := by
  unfold processMessage
  rw [hdup, hclass]
  simp only [Bool.false_eq_true, if_false]
  rw [hnull]
  refine ⟨rfl, by rw [List.length_map], ?_, rfl, trivial, trivial⟩
  intro t ht
  obtain ⟨a, _, hat⟩ := List.mem_map.mp ht
  rw [← hat]

/-- Witness for the amended C6 at the concrete scenario. -/
theorem claim_C6_witness :
    c6Msg.is_duplicate = false ∧
    messageClassification true sampleIndex c6Msg = some c6Result ∧
    c6Result.primary_entity_id = none ∧
    ((processMessage true sampleIndex c6Msg).correspondence = [] ∧
     (processMessage true sampleIndex c6Msg).tasks.length = c6Result.action_items.length ∧
     (∀ t ∈ (processMessage true sampleIndex c6Msg).tasks, t.entity_id = none) ∧
     (processMessage true sampleIndex c6Msg).activities.length = 1 ∧
     (processMessage true sampleIndex c6Msg).processed_increment = 1 ∧
     (processMessage true sampleIndex c6Msg).updated_increment = 1) :=
  ⟨rfl, by decide, rfl,
   claim_C6_amended_null_entity_emission true sampleIndex c6Msg c6Result rfl (by decide) rfl⟩

/-- C7 counterexample: with no language-model client, run() synthesizes
the minimal classification from all_matches[0] — here the contact — even
though the highest-preference match per the investor, organization,
contact order is the linked investor. -/
theorem claim_C7_counterexample :
    resolve_multiple sampleIndex (participant_emails c7Msg.details) =
      [contactMatch sampleContact, junctionInvestorMatch sampleInvestor] ∧
    preferredEntity (resolve_multiple sampleIndex (participant_emails c7Msg.details)) =
      some (junctionInvestorMatch sampleInvestor) ∧
    (messageClassification false sampleIndex c7Msg).map (fun r => r.primary_entity_id) =
      some (some "c1") ∧
    (junctionInvestorMatch sampleInvestor).entity_id = "i1" ∧
    some (some ("c1" : String)) ≠ some (some ("i1" : String)) :=
  ⟨by decide, by decide, by decide, by decide, by decide⟩

/-- C7 amended: with no language-model client configured, the pipeline
synthesizes the minimal classification, with no action items, from the
first resolved match in resolution order (all_matches[0]), which is not in
general the highest-preference match by entity type. -/
theorem claim_C7_amended_first_match (idx : ResolverIndex) (m : MsgInput)
    (first : EntityMatch) (rest : List EntityMatch)
    (h : resolve_multiple idx (participant_emails m.details) = first :: rest) :
    messageClassification false idx m = some
      { primary_silo := first.entity_type
        primary_entity_id := some first.entity_id
        primary_entity_name := some first.entity_name
        summary := "Email: " ++ strTake m.details.subject 80
        action_items := []
        tags := []
        sentiment := "neutral" } := by
  unfold messageClassification
  rw [h]
  simp

/-- Witness for the amended C7 at the concrete scenario. -/
theorem claim_C7_witness :
    resolve_multiple sampleIndex (participant_emails c7Msg.details) =
      contactMatch sampleContact :: [junctionInvestorMatch sampleInvestor] ∧
    messageClassification false sampleIndex c7Msg = some
      { primary_silo := (contactMatch sampleContact).entity_type
        primary_entity_id := some (contactMatch sampleContact).entity_id
        primary_entity_name := some (contactMatch sampleContact).entity_name
        summary := "Email: " ++ strTake c7Msg.details.subject 80
        action_items := []
        tags := []
        sentiment := "neutral" } :=
  ⟨by decide,
   claim_C7_amended_first_match sampleIndex c7Msg (contactMatch sampleContact)
     [junctionInvestorMatch sampleInvestor] (by decide)⟩

/-- C8 counterexample: the URL parser is lenient, so domain extraction of
the string not a url yields the entry not a url, not no entry. -/
theorem claim_C8_counterexample :
    extract_domain "not a url" ≠ none ∧ extract_domain "not a url" = some "not a url" :=
  ⟨by decide, by decide⟩

/-- C8 amended: domain extraction prepends a scheme when absent, parses
the hostname, strips one leading www. and never raises; a scheme-free or
full URL with a well-formed host yields the host without www., the
malformed string not a url yields the entry not a url (the parser accepts
spaces in a hostname), and only inputs with no parseable hostname (empty
string, bare scheme, an http-prefixed string with no slashes) yield no
entry. -/
theorem claim_C8_amended_domain_extraction :
    extract_domain "HTTPS://WWW.Example.com/path" = some "example.com" ∧
    extract_domain "example.com/path" = some "example.com" ∧
    extract_domain "www.example.com" = some "example.com" ∧
    extract_domain "not a url" = some "not a url" ∧
    extract_domain "" = none ∧
    extract_domain "https://" = none ∧
    extract_domain "http" = none :=
  ⟨by decide, by decide, by decide, by decide, by decide, by decide, by decide⟩
